import Mathlib

/-!
# CppAsync: `CommonAwaitable<R>` and `CommonAwaitable<void>`

A shallow embedding of `src/CppAsync/CommonAwaitable.h`.

* An object is a record of its fields; a member function is a function from the
  object(s) before the call to the object(s) after it.
* An operation that can fail a check returns an `Option`: `none` stands for a
  failed `ut_assert` / `ut_dcheck` or for reading the union storage through the
  wrong branch (undefined behaviour in C++).
* `R`'s move operations are taken on their non-throwing path (the moved value
  arrives unchanged).  The only modelled exception is the one `R`'s constructor
  may throw inside `initializeResult`.
* What a moved-from `Error` holds is fixed neither by the specification nor by
  the sources; it is a parameter (`residue`) of every operation that leaves a
  moved-from `Error` inside an object.

`AwaitableBase.h`, `util/EitherData.h`, `util/SmartPtr.h` and `impl/Common.h`
are not part of the available sources; what `CommonAwaitable.h` uses from them
is modelled from the specification and marked as such.
-/

namespace ut

/-! ## Collaborators that are not in the source tree -/

/-- Modelled from the spec: the type `Error` of `impl/Common.h` (absent), "an
opaque, comparable-to-empty error value".  `none` is the empty error `Error()`,
`some n` is the captured exception number `n`. -/
abbrev Error := Option Nat

/-- Modelled from the spec: the empty error `Error()` (absent `impl/Common.h`). -/
abbrev Error.empty : Error := none

/-- Modelled from the spec: `std::move` of an `Error` (absent `impl/Common.h`).
Error values are no-throw movable: the target receives the value.  What the
moved-from object holds afterwards is stated neither by the spec nor by the
sources, so it is the parameter `residue`: an object that held `e` holds
`residue e` after it has been moved from.  Returns
`(target, moved-from source)`. -/
def Error.move (residue : Error → Error) (e : Error) : Error × Error := (e, residue e)

/-- A move of `Error` that copies: the source keeps its value (an error type
that is trivially copyable or has no move operations of its own). -/
def Error.copying : Error → Error := fun e => e

/-- Modelled from the spec: `std::current_exception()` inside the handler that
caught exception number `n`; it is never the empty error. -/
def current_exception (n : Nat) : Error := some n

/-- Modelled from the spec: the state word `mState` of `AwaitableBase.h`
(absent): Pending, Completed, Canceled, Moved, plus operation-specific extra
states. -/
inductive AwaitableState where
  | Pending
  | Completed
  | Canceled
  | Moved
  | Extra (n : Nat)
  deriving DecidableEq, Repr

/-- Modelled from the spec: the constant `ST_Completed` of `AwaitableBase.h` (absent). -/
abbrev ST_Completed : AwaitableState := AwaitableState.Completed

/-- Modelled from the spec: the constant `ST_Invalid0` of `AwaitableBase.h` (absent). -/
abbrev ST_Invalid0 : AwaitableState := AwaitableState.Moved

/-- Modelled from the spec: the constant `ST_Invalid1` of `AwaitableBase.h` (absent). -/
abbrev ST_Invalid1 : AwaitableState := AwaitableState.Canceled

/-- The constant `ST_Moved = ST_Invalid0` of `CommonAwaitable`. -/
abbrev ST_Moved : AwaitableState := ST_Invalid0

/-- The constant `ST_Canceled = ST_Invalid1` of `CommonAwaitable`. -/
abbrev ST_Canceled : AwaitableState := ST_Invalid1

/-- Modelled from the spec: the continuation reference `mAwaiter` of
`AwaitableBase.h` (absent), a non-owning pointer; `none` is `nullptr`. -/
abbrev AwaiterPtr := Option Nat

/-- Modelled from the spec: `movePtr` of `util/SmartPtr.h` (absent): yields the
pointer and clears the source.  Returns `(result, source afterwards)`. -/
def movePtr (p : AwaiterPtr) : AwaiterPtr × AwaiterPtr := (p, none)

/-- Modelled from the spec: the storage `EitherData<A, B>` of
`util/EitherData.h` (absent), the spec's ResultCell: exactly one of
{Error, Value} lives in it and the active branch is tracked by the owner.
`blank` is the storage with no live object (between a destructor call and the
next construction). -/
inductive EitherData (A B : Type) where
  | a (x : A)
  | b (y : B)
  | blank
  deriving DecidableEq, Repr

namespace EitherData

variable {R : Type}

/-- Modelled from the spec: `EitherData() `, default construction of the
storage (absent `util/EitherData.h`): it holds the empty error. -/
def init : EitherData Error R := EitherData.a Error.empty

/-- Modelled from the spec: accessor `a()` of the absent `util/EitherData.h`;
reads the storage as an `Error`. -/
def getA : EitherData Error R → Option Error
  | EitherData.a e => some e
  | _ => none

/-- Modelled from the spec: accessor `b()` of the absent `util/EitherData.h`;
reads the storage as an `R`. -/
def getB : EitherData Error R → Option R
  | EitherData.b v => some v
  | _ => none

/-- Modelled from the spec: the constructor `EitherData(bool isB, EitherData&& other)`
of the absent `util/EitherData.h`: move-constructs the branch named by `isB`
from `other`.  Returns `(new storage, other afterwards)`. -/
def moveConstruct (isB : Bool) (other : EitherData Error R) (residue : Error → Error) :
    Option (EitherData Error R × EitherData Error R) :=
  match isB, other with
  | true, EitherData.b v => some (EitherData.b v, EitherData.b v)
  | false, EitherData.a e =>
    some (EitherData.a (Error.move residue e).1, EitherData.a (Error.move residue e).2)
  | _, _ => none

/-- Modelled from the spec: `assign(bool isB, Error&& value)` of the absent
`util/EitherData.h` (ResultCell.assign): whichever branch `isB` names is
replaced by the error `value`. -/
def assignA (self : EitherData Error R) (isB : Bool) (value : Error) :
    Option (EitherData Error R) :=
  match isB, self with
  | true, EitherData.b _ => some (EitherData.a value)
  | false, EitherData.a _ => some (EitherData.a value)
  | _, _ => none

/-- Modelled from the spec: `assign(bool isB, R&& value)` of the absent
`util/EitherData.h` (ResultCell.assign): whichever branch `isB` names is
replaced by the value `value`. -/
def assignB (self : EitherData Error R) (isB : Bool) (value : R) :
    Option (EitherData Error R) :=
  match isB, self with
  | true, EitherData.b _ => some (EitherData.b value)
  | false, EitherData.a _ => some (EitherData.b value)
  | _, _ => none

/-- Modelled from the spec: `swap(bool isB, bool otherIsB, EitherData& other)`
of the absent `util/EitherData.h` (ResultCell.swap): exchanges the active
branches.  Returns `(self afterwards, other afterwards)`. -/
def swap (self : EitherData Error R) (isB otherIsB : Bool) (other : EitherData Error R) :
    Option (EitherData Error R × EitherData Error R) :=
  match isB, self, otherIsB, other with
  | true, EitherData.b v, true, EitherData.b w => some (EitherData.b w, EitherData.b v)
  | true, EitherData.b v, false, EitherData.a e => some (EitherData.a e, EitherData.b v)
  | false, EitherData.a e, true, EitherData.b w => some (EitherData.b w, EitherData.a e)
  | false, EitherData.a e, false, EitherData.a f => some (EitherData.a f, EitherData.a e)
  | _, _, _, _ => none

/-- Modelled from the spec: `raw().emplaceBIntoA(args...)` of the absent
`util/EitherData.h` (ResultCell.emplaceValue): destroys the error and
constructs an `R` in place.  `built` is what `R`'s constructor did with the
arguments: `Except.ok v` or `Except.error n` for a thrown exception `n`, in
which case the storage is left blank and the exception propagates. -/
def emplaceBIntoA (self : EitherData Error R) (built : Except Nat R) :
    Option (Except Nat Unit × EitherData Error R) :=
  match self with
  | EitherData.a _ =>
    match built with
    | Except.ok v => some (Except.ok (), EitherData.b v)
    | Except.error n => some (Except.error n, EitherData.blank)
  | _ => none

/-- Modelled from the spec: `raw().assignAIntoB(Error&&)` of the absent
`util/EitherData.h`: destroys the value and constructs the error in place. -/
def assignAIntoB (self : EitherData Error R) (value : Error) : Option (EitherData Error R) :=
  match self with
  | EitherData.b _ => some (EitherData.a value)
  | _ => none

/-- Modelled from the spec: `raw().assignIntoBlank(Error&&)` of the absent
`util/EitherData.h`: constructs the error in storage that holds no object. -/
def assignIntoBlank (self : EitherData Error R) (value : Error) : Option (EitherData Error R) :=
  match self with
  | EitherData.blank => some (EitherData.a value)
  | _ => none

end EitherData

/-! ## `CommonAwaitable<R>` -/

/-- The fields of `CommonAwaitable<R>`: `mState` and `mAwaiter` inherited from
`AwaitableBase`, and the payload `mResult`. -/
structure CommonAwaitable (R : Type) where
  mState : AwaitableState
  mAwaiter : AwaiterPtr
  mResult : EitherData Error R
  deriving DecidableEq, Repr

/-- How `R` is built from the arguments of `initializeResult`:
`std::is_nothrow_constructible<R, Args...>` selects the tag. -/
inductive Constructor (Args R : Type) where
  | nothrow (f : Args → R)
  | maythrow (f : Args → Except Nat R)

/-- What a call of `get()` does: return a value, raise the stored error, or
fail a check. -/
inductive GetOutcome (R : Type) where
  | returned (v : R)
  | raised (e : Error)
  | violated
  deriving DecidableEq, Repr

namespace CommonAwaitable

variable {R Args : Type}

/-- The protected default constructor `CommonAwaitable()`; the field values
come from the absent `AwaitableBase` and `EitherData` constructors, for which
the spec says: created Pending with empty payload, no continuation. -/
def new : CommonAwaitable R :=
  { mState := AwaitableState.Pending, mAwaiter := none, mResult := EitherData.init }

/-- `hasResult()`: `mState == ST_Completed`. -/
def hasResult (self : CommonAwaitable R) : Bool :=
  self.mState == ST_Completed

/-- Modelled from the spec: `AwaitableBase::isReady()` (absent): "true once
state is Completed (value or error), not true for Pending/Canceled/Moved". -/
def isReady (self : CommonAwaitable R) : Bool :=
  self.mState == ST_Completed

/-- Modelled from the spec: `AwaitableBase::hasError()` (absent): "true iff the
error branch is active", the payload being one of {EmptyError, Error, R}. -/
def hasError (self : CommonAwaitable R) : Bool :=
  match self.mResult with
  | EitherData.a e => e != Error.empty
  | _ => false

/-- Modelled from the spec: `AwaitableBase::error()` (absent): "valid only when
`hasError()`; undefined/asserted otherwise". -/
def error (self : CommonAwaitable R) : Option Error :=
  if self.hasError then self.mResult.getA else none

/-- Tag consistency: the value branch of the payload is the live one exactly
when `hasResult()` says so, and the storage is never blank. -/
def tagConsistent (self : CommonAwaitable R) : Bool :=
  match self.mResult with
  | EitherData.a _ => !self.hasResult
  | EitherData.b _ => self.hasResult
  | EitherData.blank => false

/-- The move constructor `CommonAwaitable(CommonAwaitable&& other)`.
Returns `(the new object, other afterwards)`. -/
def moveConstruct (other : CommonAwaitable R) (residue : Error → Error) :
    Option (CommonAwaitable R × CommonAwaitable R) :=
  match EitherData.moveConstruct other.hasResult other.mResult residue with
  | none => none
  | some (res, otherRes) =>
    match otherRes.assignA other.hasResult Error.empty with
    | none => none
    | some otherRes2 =>
      some ({ mState := other.mState, mAwaiter := (movePtr other.mAwaiter).1, mResult := res },
            { mState := ST_Moved, mAwaiter := (movePtr other.mAwaiter).2, mResult := otherRes2 })

/-- The payload part of `operator=(CommonAwaitable&& other)`, the `if
(other.hasResult())` statement.  Returns `(mResult, other.mResult)` afterwards. -/
def moveAssignPayload (self other : CommonAwaitable R) (residue : Error → Error) :
    Option (EitherData Error R × EitherData Error R) :=
  if other.hasResult then
    match other.mResult.getB with
    | none => none
    | some v =>
      match self.mResult.assignB self.hasResult v with
      | none => none
      | some res =>
        match other.mResult.assignAIntoB Error.empty with
        | none => none
        | some otherRes => some (res, otherRes)
  else
    match other.mResult.getA with
    | none => none
    | some e =>
      match self.mResult.assignA self.hasResult (Error.move residue e).1 with
      | none => none
      | some res => some (res, EitherData.a (Error.move residue e).2)

/-- The move assignment `operator=(CommonAwaitable&& other)` on two distinct
objects.  Returns `(this afterwards, other afterwards)`. -/
def moveAssign (self other : CommonAwaitable R) (residue : Error → Error) :
    Option (CommonAwaitable R × CommonAwaitable R) :=
  match moveAssignPayload self other residue with
  | none => none
  | some (res, otherRes) =>
    some ({ mState := other.mState, mAwaiter := (movePtr other.mAwaiter).1, mResult := res },
          { mState := ST_Moved, mAwaiter := (movePtr other.mAwaiter).2, mResult := otherRes })

/-- The accessor `result()`: `ut_dcheck(isReady() && !hasError()); return mResult.b();`. -/
def result (self : CommonAwaitable R) : Option R :=
  if self.isReady && !self.hasError then self.mResult.getB else none

/-- The accessor `get()` with exceptions enabled:
`if (hasError()) std::rethrow_exception(error()); return result();`. -/
def get (self : CommonAwaitable R) : GetOutcome R :=
  if self.hasError then
    match self.error with
    | some e => GetOutcome.raised e
    | none => GetOutcome.violated
  else
    match self.result with
    | some v => GetOutcome.returned v
    | none => GetOutcome.violated

/-- The member `swap(CommonAwaitable& other)`.
Returns `(this afterwards, other afterwards)`. -/
def swap (self other : CommonAwaitable R) :
    Option (CommonAwaitable R × CommonAwaitable R) :=
  match self.mResult.swap self.hasResult other.hasResult other.mResult with
  | none => none
  | some (res, otherRes) =>
    some ({ mState := other.mState, mAwaiter := other.mAwaiter, mResult := res },
          { mState := self.mState, mAwaiter := self.mAwaiter, mResult := otherRes })

/-- The member `reset(uintptr_t state)`. -/
def reset (self : CommonAwaitable R) (state : AwaitableState) : Option (CommonAwaitable R) :=
  match self.mResult.assignA self.hasResult Error.empty with
  | none => none
  | some res => some { mState := state, mAwaiter := none, mResult := res }

/-- The member `initializeError(Error&& error)`.  `mResult.a() = std::move(error)`
puts the value of `error` into the storage; the moved-from argument is the
caller's object, not part of this one. -/
def initializeError (self : CommonAwaitable R) (error : Error) : Option (CommonAwaitable R) :=
  if self.isReady then none
  else
    match self.mResult.getA with
    | none => none
    | some e =>
      if e != Error.empty then none
      else if error == Error.empty then none
      else some { self with mResult := EitherData.a error }

/-- The member `initializeResultImpl(NoThrowTag, Args&&...)`.
Returns `(the bool result, this afterwards)`. -/
def initializeResultImpl_NoThrow (self : CommonAwaitable R) (f : Args → R) (args : Args) :
    Option (Bool × CommonAwaitable R) :=
  if self.isReady then none
  else
    match self.mResult.getA with
    | none => none
    | some e =>
      if e != Error.empty then none
      else
        match self.mResult.emplaceBIntoA (Except.ok (f args)) with
        | none => none
        | some (_, res) => some (true, { self with mResult := res })

/-- The member `initializeResultImpl(ThrowTag, Args&&...)`.
Returns `(the bool result, this afterwards)`. -/
def initializeResultImpl_Throw (self : CommonAwaitable R) (f : Args → Except Nat R)
    (args : Args) : Option (Bool × CommonAwaitable R) :=
  if self.isReady then none
  else
    match self.mResult.getA with
    | none => none
    | some e =>
      if e != Error.empty then none
      else
        match self.mResult.emplaceBIntoA (f args) with
        | none => none
        | some (Except.ok _, res) => some (true, { self with mResult := res })
        | some (Except.error n, res) =>
          match res.assignIntoBlank (current_exception n) with
          | none => none
          | some res2 => some (false, { self with mResult := res2 })

/-- The member `initializeResult(Args&&...)`: dispatches on
`TagByNoThrow<std::is_nothrow_constructible<R, Args...>::value>`. -/
def initializeResult (self : CommonAwaitable R) (c : Constructor Args R) (args : Args) :
    Option (Bool × CommonAwaitable R) :=
  match c with
  | Constructor.nothrow f => self.initializeResultImpl_NoThrow f args
  | Constructor.maythrow f => self.initializeResultImpl_Throw f args

/-- What `R`'s constructor does with `args`: the value built, or the number of
the exception thrown. -/
def construct (c : Constructor Args R) (args : Args) : Except Nat R :=
  match c with
  | Constructor.nothrow f => Except.ok (f args)
  | Constructor.maythrow f => f args

/-- The object the move constructor leaves behind: state `ST_Moved`, no
continuation, the empty error in the payload. -/
def movedFrom : CommonAwaitable R :=
  { mState := ST_Moved, mAwaiter := none, mResult := EitherData.a Error.empty }

/-- The object `operator=` leaves behind when its source was `A`: state
`ST_Moved`, no continuation; the payload is the empty error when `A` held a
value (line 55 assigns `Error()`), and the moved-from error when `A` held an
error (lines 56-58 only move out of `other.mResult.a()`). -/
def assignedFrom (A : CommonAwaitable R) (residue : Error → Error) : CommonAwaitable R :=
  { mState := ST_Moved, mAwaiter := none,
    mResult := match A.mResult with
      | EitherData.a e => EitherData.a (residue e)
      | _ => EitherData.a Error.empty }

/-- A constructor of `int` from `int` that throws exception 9 on odd input. -/
def evenOnly : Constructor Nat Nat :=
  Constructor.maythrow fun n => if n % 2 = 0 then Except.ok n else Except.error 9

end CommonAwaitable

/-! ## `CommonAwaitable<void>` -/

/-- The fields of `CommonAwaitable<void>`: `mState` and `mAwaiter` inherited
from `AwaitableBase`, and the payload `mError`. -/
structure CommonAwaitableVoid where
  mState : AwaitableState
  mAwaiter : AwaiterPtr
  mError : Error
  deriving DecidableEq, Repr

namespace CommonAwaitableVoid

/-- The protected default constructor of `CommonAwaitable<void>`; the field
values come from the absent `AwaitableBase` and `Error` constructors, for which
the spec says: created Pending with empty payload, no continuation. -/
def new : CommonAwaitableVoid :=
  { mState := AwaitableState.Pending, mAwaiter := none, mError := Error.empty }

/-- The move constructor of `CommonAwaitable<void>`.
Returns `(the new object, other afterwards)`. -/
def moveConstruct (other : CommonAwaitableVoid) (residue : Error → Error) :
    CommonAwaitableVoid × CommonAwaitableVoid :=
  ({ mState := other.mState, mAwaiter := (movePtr other.mAwaiter).1,
     mError := (Error.move residue other.mError).1 },
   { mState := ST_Moved, mAwaiter := (movePtr other.mAwaiter).2,
     mError := (Error.move residue other.mError).2 })

/-- The move assignment of `CommonAwaitable<void>` on two distinct objects.
Returns `(this afterwards, other afterwards)`. -/
def moveAssign (self other : CommonAwaitableVoid) : CommonAwaitableVoid × CommonAwaitableVoid :=
  ({ self with mAwaiter := (movePtr other.mAwaiter).1, mState := other.mState },
   { other with mAwaiter := (movePtr other.mAwaiter).2, mState := ST_Moved })

/-- The member `swap` of `CommonAwaitable<void>`.
Returns `(this afterwards, other afterwards)`. -/
def swap (self other : CommonAwaitableVoid) : CommonAwaitableVoid × CommonAwaitableVoid :=
  ({ self with mAwaiter := other.mAwaiter, mState := other.mState },
   { other with mAwaiter := self.mAwaiter, mState := self.mState })

/-- The member `reset(uintptr_t state)` of `CommonAwaitable<void>`. -/
def reset (self : CommonAwaitableVoid) (state : AwaitableState) : CommonAwaitableVoid :=
  { self with mAwaiter := none, mState := state }

/-- Modelled from the spec: `AwaitableBase::isReady()` (absent) on the void
specialization: "true once state is Completed". -/
def isReady (self : CommonAwaitableVoid) : Bool :=
  self.mState == ST_Completed

/-- Modelled from the spec: `AwaitableBase::hasError()` (absent) on the void
specialization: "true iff the error branch is active"; the payload being just
an `Error`, that is a non-empty `mError`. -/
def hasError (self : CommonAwaitableVoid) : Bool :=
  self.mError != Error.empty

/-- Modelled from the spec: `AwaitableBase::error()` (absent) on the void
specialization: "valid only when `hasError()`; undefined/asserted otherwise". -/
def error (self : CommonAwaitableVoid) : Option Error :=
  if self.hasError then some self.mError else none

/-- The accessor `get()` of `CommonAwaitable<void>` with exceptions enabled:
`if (hasError()) std::rethrow_exception(error());`. -/
def get (self : CommonAwaitableVoid) : GetOutcome Unit :=
  if self.hasError then
    match self.error with
    | some e => GetOutcome.raised e
    | none => GetOutcome.violated
  else GetOutcome.returned ()

/-- The member `initializeResult()` of `CommonAwaitable<void>`.
Returns `(the bool result, this afterwards)`. -/
def initializeResult (self : CommonAwaitableVoid) : Option (Bool × CommonAwaitableVoid) :=
  if self.isReady then none
  else if self.mError != Error.empty then none
  else some (true, self)

/-- The member `initializeError(Error&& error)` of `CommonAwaitable<void>`.
`mError = std::move(error)` puts the value of `error` into `mError`; the
moved-from argument is the caller's object, not part of this one. -/
def initializeError (self : CommonAwaitableVoid) (error : Error) : Option CommonAwaitableVoid :=
  if self.isReady then none
  else if self.mError != Error.empty then none
  else if error == Error.empty then none
  else some { self with mError := error }

end CommonAwaitableVoid

/-! ## Reachable states -/

/-- The states of a `CommonAwaitable<R>` reachable from a freshly constructed
object by `reset`, move construction, move assignment, swap and the two
completion calls, every call running to its end.  A completion call is taken
together with what its caller does next: the write of a state other than
Pending into `mState` (the calls themselves never write the state word). -/
inductive CommonAwaitable.Reachable (Args R : Type) : CommonAwaitable R → Prop where
  | fresh : CommonAwaitable.Reachable Args R CommonAwaitable.new
  | reset (a a1 : CommonAwaitable R) (s : AwaitableState) :
      CommonAwaitable.Reachable Args R a → a.reset s = some a1 →
      CommonAwaitable.Reachable Args R a1
  | moveConstructNew (a n a1 : CommonAwaitable R) (residue : Error → Error) :
      CommonAwaitable.Reachable Args R a → a.moveConstruct residue = some (n, a1) →
      CommonAwaitable.Reachable Args R n
  | moveConstructSource (a n a1 : CommonAwaitable R) (residue : Error → Error) :
      CommonAwaitable.Reachable Args R a → a.moveConstruct residue = some (n, a1) →
      CommonAwaitable.Reachable Args R a1
  | moveAssignTarget (b a b1 a1 : CommonAwaitable R) (residue : Error → Error) :
      CommonAwaitable.Reachable Args R b → CommonAwaitable.Reachable Args R a →
      b.moveAssign a residue = some (b1, a1) → CommonAwaitable.Reachable Args R b1
  | moveAssignSource (b a b1 a1 : CommonAwaitable R) (residue : Error → Error) :
      CommonAwaitable.Reachable Args R b → CommonAwaitable.Reachable Args R a →
      b.moveAssign a residue = some (b1, a1) → CommonAwaitable.Reachable Args R a1
  | swapLeft (a b a1 b1 : CommonAwaitable R) :
      CommonAwaitable.Reachable Args R a → CommonAwaitable.Reachable Args R b →
      a.swap b = some (a1, b1) → CommonAwaitable.Reachable Args R a1
  | swapRight (a b a1 b1 : CommonAwaitable R) :
      CommonAwaitable.Reachable Args R a → CommonAwaitable.Reachable Args R b →
      a.swap b = some (a1, b1) → CommonAwaitable.Reachable Args R b1
  | initializeResult (a a1 : CommonAwaitable R) (c : Constructor Args R) (args : Args)
      (r : Bool) (s : AwaitableState) :
      CommonAwaitable.Reachable Args R a → a.initializeResult c args = some (r, a1) →
      s ≠ AwaitableState.Pending →
      CommonAwaitable.Reachable Args R { a1 with mState := s }
  | initializeError (a a1 : CommonAwaitable R) (E : Error) (s : AwaitableState) :
      CommonAwaitable.Reachable Args R a → a.initializeError E = some a1 →
      s ≠ AwaitableState.Pending →
      CommonAwaitable.Reachable Args R { a1 with mState := s }

/-- The states of a `CommonAwaitable<void>` reachable from a freshly
constructed object by move construction and the two completion calls, a
completion call again taken together with the caller's write of a state other
than Pending. -/
inductive CommonAwaitableVoid.Reachable : CommonAwaitableVoid → Prop where
  | fresh : CommonAwaitableVoid.Reachable CommonAwaitableVoid.new
  | moveConstructNew (x : CommonAwaitableVoid) (residue : Error → Error) :
      CommonAwaitableVoid.Reachable x →
      CommonAwaitableVoid.Reachable (CommonAwaitableVoid.moveConstruct x residue).1
  | moveConstructSource (x : CommonAwaitableVoid) (residue : Error → Error) :
      CommonAwaitableVoid.Reachable x →
      CommonAwaitableVoid.Reachable (CommonAwaitableVoid.moveConstruct x residue).2
  | initializeResult (x x1 : CommonAwaitableVoid) (r : Bool) (s : AwaitableState) :
      CommonAwaitableVoid.Reachable x → x.initializeResult = some (r, x1) →
      s ≠ AwaitableState.Pending →
      CommonAwaitableVoid.Reachable { x1 with mState := s }
  | initializeError (x x1 : CommonAwaitableVoid) (E : Error) (s : AwaitableState) :
      CommonAwaitableVoid.Reachable x → x.initializeError E = some x1 →
      s ≠ AwaitableState.Pending →
      CommonAwaitableVoid.Reachable { x1 with mState := s }

/-! ## Continuations and their invocation

None of the member functions of `CommonAwaitable.h` calls through `mAwaiter`;
attaching a continuation and invoking it belong to `AwaitableBase` and to the
owners of the objects.  Those two steps are modelled from the specification;
every other step below is a member function of `CommonAwaitable<R>`. -/

/-- The objects of a program, by address, with the ledger of the
continuations attached so far and of the continuations invoked so far (in
order of invocation). -/
structure World (R : Type) where
  objs : Nat → CommonAwaitable R
  attached : List Nat
  invoked : List Nat

/-- The initial world: a freshly constructed object at every address, nothing
attached, nothing invoked. -/
def World.init {R : Type} : World R :=
  { objs := fun _ => CommonAwaitable.new, attached := [], invoked := [] }

/-- What a step does to state words, continuation references and the two
ledgers: it moves (state, continuation) pairs between addresses or drops
them; or it attaches a fresh continuation to an object that had none; or it
takes a Pending object out of Pending and invokes its continuation. -/
inductive Effect {R : Type} (w w1 : World R) : Prop where
  | rename (src : Nat → Option Nat)
      (hnone : ∀ i1, src i1 = none → (w1.objs i1).mAwaiter = none)
      (hsome : ∀ i1 i, src i1 = some i →
        (w1.objs i1).mAwaiter = (w.objs i).mAwaiter ∧ (w1.objs i1).mState = (w.objs i).mState)
      (hinj : ∀ i1 j1 i, src i1 = some i → src j1 = some i → i1 = j1)
      (hatt : w1.attached = w.attached) (hinv : w1.invoked = w.invoked)
  | attach (i k : Nat) (hk : k ∉ w.attached) (h0 : (w.objs i).mAwaiter = none)
      (hnew : (w1.objs i).mAwaiter = some k)
      (hother : ∀ j, j ≠ i → w1.objs j = w.objs j)
      (hatt : w1.attached = k :: w.attached) (hinv : w1.invoked = w.invoked)
  | terminal (i : Nat) (hP : (w.objs i).mState = AwaitableState.Pending)
      (haw : (w1.objs i).mAwaiter = (w.objs i).mAwaiter)
      (hst : (w1.objs i).mState ≠ AwaitableState.Pending)
      (hother : ∀ j, j ≠ i → w1.objs j = w.objs j)
      (hatt : w1.attached = w.attached)
      (hinv : w1.invoked = w.invoked ++ (w.objs i).mAwaiter.toList)

namespace CommonAwaitable

variable {R Args : Type}

/-- C1 (as stated, refuted): on the freshly constructed `Awaitable<int>`,
`initializeResult(42)` succeeds and stores 42, but the state word is not
written, so `isReady()` is still false and `result()` fails its check. -/
theorem C1_initializeResult_not_ready :
    ∃ a : CommonAwaitable Nat,
      (new : CommonAwaitable Nat).initializeResult (Constructor.nothrow fun n : Nat => n) 42
        = some (true, a) ∧
      a.isReady = false ∧ a.result = none := by
  refine ⟨{ mState := AwaitableState.Pending, mAwaiter := none, mResult := EitherData.b 42 },
    ?_, ?_, ?_⟩ <;> rfl

/-- C1 (amended): for a Pending awaitable with empty payload, an
`initializeResult` whose construction yields `v` returns true, puts `v` in the
value branch and leaves state and continuation alone; `hasError()` is false and
`isReady()` is still false.  Once the owner has set the state to
`ST_Completed`, `isReady()` is true, `hasError()` is false and `result()` and
`get()` give `v`. -/
theorem C1_initializeResult_value (a : CommonAwaitable R) (c : Constructor Args R)
    (args : Args) (v : R)
    (hstate : a.mState = AwaitableState.Pending)
    (hempty : a.mResult = EitherData.a Error.empty)
    (hbuilt : construct c args = Except.ok v) :
    ∃ a1 : CommonAwaitable R,
      a.initializeResult c args = some (true, a1) ∧
      a1.mResult = EitherData.b v ∧ a1.mState = a.mState ∧ a1.mAwaiter = a.mAwaiter ∧
      a1.hasError = false ∧ a1.isReady = false ∧
      ({ a1 with mState := ST_Completed } : CommonAwaitable R).isReady = true ∧
      ({ a1 with mState := ST_Completed } : CommonAwaitable R).hasError = false ∧
      ({ a1 with mState := ST_Completed } : CommonAwaitable R).result = some v ∧
      ({ a1 with mState := ST_Completed } : CommonAwaitable R).get = GetOutcome.returned v := by
  obtain ⟨s, w, r⟩ := a
  simp only at hstate hempty
  subst hstate hempty
  cases c with
  | nothrow f =>
    simp only [construct, Except.ok.injEq] at hbuilt
    subst hbuilt
    exact ⟨_, rfl, rfl, rfl, rfl, rfl, rfl, rfl, rfl, rfl, rfl⟩
  | maythrow f =>
    simp only [construct] at hbuilt
    refine ⟨{ mState := AwaitableState.Pending, mAwaiter := w, mResult := EitherData.b v },
      ?_, rfl, rfl, rfl, rfl, rfl, rfl, rfl, rfl, rfl⟩
    simp [initializeResult, initializeResultImpl_Throw, isReady, EitherData.getA,
      EitherData.emplaceBIntoA, hbuilt]

/-- C1 witness: the amended statement at `Awaitable<int>`, `v = 42`. -/
theorem C1_initializeResult_value_witness :
    ∃ a1 : CommonAwaitable Nat,
      (new : CommonAwaitable Nat).initializeResult (Constructor.nothrow fun n : Nat => n) 42
        = some (true, a1) ∧
      a1.mResult = EitherData.b 42 ∧ a1.mState = AwaitableState.Pending ∧ a1.mAwaiter = none ∧
      a1.hasError = false ∧ a1.isReady = false ∧
      ({ a1 with mState := ST_Completed } : CommonAwaitable Nat).isReady = true ∧
      ({ a1 with mState := ST_Completed } : CommonAwaitable Nat).hasError = false ∧
      ({ a1 with mState := ST_Completed } : CommonAwaitable Nat).result = some 42 ∧
      ({ a1 with mState := ST_Completed } : CommonAwaitable Nat).get = GetOutcome.returned 42 :=
  C1_initializeResult_value new (Constructor.nothrow fun n : Nat => n) 42 42 rfl rfl rfl

/-- C2: for a non-empty error `E` and a Pending awaitable with empty payload,
`initializeError(E)` succeeds; afterwards `hasError()` is true, the awaitable
holds no result value (the payload is the error branch, `hasResult()` is false
and `result()` fails its check), the stored error is `E`, and `get()` raises
`E`. -/
theorem C2_initializeError (a : CommonAwaitable R) (E : Error)
    (hE : E ≠ Error.empty)
    (hstate : a.mState = AwaitableState.Pending)
    (hempty : a.mResult = EitherData.a Error.empty) :
    ∃ a1 : CommonAwaitable R,
      a.initializeError E = some a1 ∧
      a1.hasError = true ∧
      a1.hasResult = false ∧ (∀ v : R, a1.mResult ≠ EitherData.b v) ∧ a1.result = none ∧
      a1.mResult = EitherData.a E ∧ a1.error = some E ∧
      a1.get = GetOutcome.raised E := by
  obtain ⟨s, w, r⟩ := a
  simp only at hstate hempty
  subst hstate hempty
  have hE1 : (E == Error.empty) = false := by simpa using hE
  have hE2 : (E != Error.empty) = true := by simpa using hE
  refine ⟨{ mState := AwaitableState.Pending, mAwaiter := w, mResult := EitherData.a E },
    ?_, ?_, rfl, ?_, ?_, rfl, ?_, ?_⟩
  · simp [initializeError, isReady, EitherData.getA, hE1]
  · simpa [hasError] using hE
  · intro v h
    cases h
  · simp [result, isReady]
  · simp [error, hasError, hE2, EitherData.getA]
  · simp [get, error, hasError, hE2, EitherData.getA]

/-- C2 witness: `Awaitable<int> a; a.initializeError(E)` with `E` the captured
exception number 7. -/
theorem C2_initializeError_witness :
    ∃ a1 : CommonAwaitable Nat,
      (new : CommonAwaitable Nat).initializeError (some 7) = some a1 ∧
      a1.hasError = true ∧
      a1.hasResult = false ∧ (∀ v : Nat, a1.mResult ≠ EitherData.b v) ∧ a1.result = none ∧
      a1.mResult = EitherData.a (some 7) ∧ a1.error = some (some 7) ∧
      a1.get = GetOutcome.raised (some 7) :=
  C2_initializeError new (some 7) (by decide) rfl rfl

/-- C3: on a not-ready awaitable with empty payload `initializeResult(args)`
always completes; it returns false exactly when constructing `R` from `args`
throws; then the payload is the error branch holding the captured exception,
which is not the empty error; when construction yields `v` it returns true and
the payload is the value branch holding `v`. -/
theorem C3_initializeResult_construction (a : CommonAwaitable R) (c : Constructor Args R)
    (args : Args)
    (hready : a.isReady = false)
    (hempty : a.mResult = EitherData.a Error.empty) :
    ∃ (r : Bool) (a1 : CommonAwaitable R),
      a.initializeResult c args = some (r, a1) ∧
      (r = false ↔ ∃ n, construct c args = Except.error n) ∧
      (∀ n, construct c args = Except.error n →
        r = false ∧ a1.mResult = EitherData.a (current_exception n) ∧
        current_exception n ≠ Error.empty ∧ (∀ v : R, a1.mResult ≠ EitherData.b v) ∧
        a1.hasError = true) ∧
      (∀ v, construct c args = Except.ok v → r = true ∧ a1.mResult = EitherData.b v) := by
  obtain ⟨s, w, p⟩ := a
  simp only at hempty
  subst hempty
  cases c with
  | nothrow f =>
    refine ⟨true, { mState := s, mAwaiter := w, mResult := EitherData.b (f args) }, ?_, ?_, ?_, ?_⟩
    · simp [initializeResult, initializeResultImpl_NoThrow, hready, EitherData.getA,
        EitherData.emplaceBIntoA]
    · simp [construct]
    · intro n h
      simp [construct] at h
    · intro v h
      simp only [construct, Except.ok.injEq] at h
      subst h
      exact ⟨rfl, rfl⟩
  | maythrow f =>
    cases hf : f args with
    | error n =>
      refine ⟨false, { mState := s, mAwaiter := w, mResult := EitherData.a (current_exception n) },
        ?_, ?_, ?_, ?_⟩
      · simp [initializeResult, initializeResultImpl_Throw, hready, EitherData.getA,
          EitherData.emplaceBIntoA, EitherData.assignIntoBlank, hf]
      · simp [construct, hf]
      · intro m h
        simp only [construct, hf, Except.error.injEq] at h
        subst h
        refine ⟨rfl, rfl, ?_, ?_, ?_⟩
        · simp [current_exception]
        · intro v h
          cases h
        · simp [hasError, current_exception]
      · intro v h
        simp [construct, hf] at h
    | ok v =>
      refine ⟨true, { mState := s, mAwaiter := w, mResult := EitherData.b v }, ?_, ?_, ?_, ?_⟩
      · simp [initializeResult, initializeResultImpl_Throw, hready, EitherData.getA,
          EitherData.emplaceBIntoA, hf]
      · simp [construct, hf]
      · intro m h
        simp [construct, hf] at h
      · intro u h
        simp only [construct, hf, Except.ok.injEq] at h
        subst h
        exact ⟨rfl, rfl⟩

/-- C3 witness: a throwing construction on the fresh `Awaitable<int>`. -/
theorem C3_initializeResult_construction_witness :
    ∃ (r : Bool) (a1 : CommonAwaitable Nat),
      (new : CommonAwaitable Nat).initializeResult evenOnly 3 = some (r, a1) ∧
      (r = false ↔ ∃ n, construct evenOnly 3 = Except.error n) ∧
      (∀ n, construct evenOnly 3 = Except.error n →
        r = false ∧ a1.mResult = EitherData.a (current_exception n) ∧
        current_exception n ≠ Error.empty ∧ (∀ v : Nat, a1.mResult ≠ EitherData.b v) ∧
        a1.hasError = true) ∧
      (∀ v, construct evenOnly 3 = Except.ok v → r = true ∧ a1.mResult = EitherData.b v) :=
  C3_initializeResult_construction new evenOnly 3 rfl rfl

/-- C4: with exceptions enabled, `get()` raises exactly when `hasError()` is
true, and what it raises is `error()`; on a tag-consistent awaitable with
`isReady()` and not `hasError()`, `get()` returns the stored value, the same
one `result()` gives. -/
theorem C4_get (a : CommonAwaitable R) :
    ((∃ e, a.get = GetOutcome.raised e) ↔ a.hasError = true) ∧
    (a.hasError = true → ∃ e, a.error = some e ∧ a.get = GetOutcome.raised e) ∧
    (∀ e, a.get = GetOutcome.raised e → a.error = some e) ∧
    (a.isReady = true → a.hasError = false → a.tagConsistent = true →
      ∃ v, a.mResult = EitherData.b v ∧ a.result = some v ∧ a.get = GetOutcome.returned v) := by
  obtain ⟨s, w, p⟩ := a
  cases p with
  | a e =>
    cases e with
    | none =>
      refine ⟨?_, ?_, ?_, ?_⟩
      · simp [get, hasError, result, EitherData.getB]
      · simp [hasError]
      · intro x
        simp [get, hasError, result, EitherData.getB]
      · intro h1 _ h3
        simp [isReady] at h1
        simp [tagConsistent, hasResult, h1] at h3
    | some n =>
      refine ⟨?_, ?_, ?_, ?_⟩
      · simp [get, hasError, error, EitherData.getA]
      · simp [get, hasError, error, EitherData.getA]
      · intro x
        simp [get, hasError, error, EitherData.getA]
      · intro _ h2
        simp [hasError] at h2
  | b v =>
    refine ⟨?_, ?_, ?_, ?_⟩
    · simp only [get, hasError, result, EitherData.getB]
      simp
      intro x
      split <;> simp
    · simp [hasError]
    · intro x
      simp only [get, hasError, result, EitherData.getB]
      simp
      split <;> simp
    · intro h1 _ _
      refine ⟨v, rfl, ?_, ?_⟩
      · simp [result, h1, hasError, EitherData.getB]
      · simp [get, result, h1, hasError, EitherData.getB]
  | blank =>
    refine ⟨?_, ?_, ?_, ?_⟩
    · simp only [get, hasError, result, EitherData.getB]
      simp
    · simp [hasError]
    · intro x
      simp only [get, hasError, result, EitherData.getB]
      simp
    · intro _ _ h3
      simp [tagConsistent] at h3

/-- C4 witness: a completed `Awaitable<int>` holding 5 returns 5 from `get()`. -/
theorem C4_get_witness :
    ∃ v, ({ mState := ST_Completed, mAwaiter := none, mResult := EitherData.b 5 } :
        CommonAwaitable Nat).mResult = EitherData.b v ∧
      ({ mState := ST_Completed, mAwaiter := none, mResult := EitherData.b 5 } :
        CommonAwaitable Nat).result = some v ∧
      ({ mState := ST_Completed, mAwaiter := none, mResult := EitherData.b 5 } :
        CommonAwaitable Nat).get = GetOutcome.returned v :=
  (C4_get { mState := ST_Completed, mAwaiter := none, mResult := EitherData.b 5 }).2.2.2
    rfl rfl rfl

/-! ## Theorems: `CommonAwaitable<R>`, move, swap and reset -/

/-- A tag-consistent object holds a value when `hasResult()` and an error
otherwise. -/
theorem tagConsistent_cases (a : CommonAwaitable R) (h : a.tagConsistent = true) :
    (a.hasResult = true ∧ ∃ v, a.mResult = EitherData.b v) ∨
    (a.hasResult = false ∧ ∃ e, a.mResult = EitherData.a e) := by
  obtain ⟨s, w, p⟩ := a
  cases p with
  | a e =>
    right
    simp only [tagConsistent, Bool.not_eq_true'] at h
    exact ⟨h, e, rfl⟩
  | b v =>
    left
    simp only [tagConsistent] at h
    exact ⟨h, v, rfl⟩
  | blank => simp [tagConsistent] at h

/-- C5: move construction from a source `A` in any tag-consistent state
completes, whatever a moved-from `Error` holds; the new object has exactly the
state, payload and continuation `A` had (so it observes the value `v` when `A`
was Completed with `v`), and `A` is left in state `ST_Moved` with the empty
error as payload, no value, no error and no continuation. -/
theorem C5_moveConstruct (A : CommonAwaitable R) (residue : Error → Error)
    (hA : A.tagConsistent = true) :
    ∃ B A1 : CommonAwaitable R,
      A.moveConstruct residue = some (B, A1) ∧
      B.mState = A.mState ∧ B.mResult = A.mResult ∧ B.mAwaiter = A.mAwaiter ∧
      (∀ v, A.mState = ST_Completed → A.mResult = EitherData.b v → B.result = some v) ∧
      A1.mState = ST_Moved ∧ A1.mResult = EitherData.a Error.empty ∧ A1.mAwaiter = none ∧
      A1.hasResult = false ∧ A1.hasError = false := by
  refine ⟨A, movedFrom, ?_, rfl, rfl, rfl, ?_, rfl, rfl, rfl, rfl, rfl⟩
  · obtain ⟨s, w, p⟩ := A
    rcases tagConsistent_cases _ hA with ⟨h, v, hv⟩ | ⟨h, e, hv⟩ <;>
      simp only at hv <;> subst hv <;>
      simp [moveConstruct, h, EitherData.moveConstruct, EitherData.assignA, movePtr,
        Error.move, movedFrom]
  · intro v hs hv
    simp [result, isReady, hs, hasError, hv, EitherData.getB]

/-- C5 witness: moving out of an `Awaitable<int>` completed with 42, with a
move of `Error` that copies. -/
theorem C5_moveConstruct_witness :
    ∃ B A1 : CommonAwaitable Nat,
      ({ mState := ST_Completed, mAwaiter := some 3, mResult := EitherData.b 42 } :
        CommonAwaitable Nat).moveConstruct Error.copying = some (B, A1) ∧
      B.mState = ST_Completed ∧ B.mResult = EitherData.b 42 ∧ B.mAwaiter = some 3 ∧
      (∀ v, ST_Completed = ST_Completed → (EitherData.b 42 : EitherData Error Nat) = EitherData.b v →
        B.result = some v) ∧
      A1.mState = ST_Moved ∧ A1.mResult = EitherData.a Error.empty ∧ A1.mAwaiter = none ∧
      A1.hasResult = false ∧ A1.hasError = false :=
  C5_moveConstruct { mState := ST_Completed, mAwaiter := some 3, mResult := EitherData.b 42 }
    Error.copying rfl

/-- C8: `swap` between two tag-consistent objects completes and exchanges
everything: `A` ends with the state, payload and continuation `B` had and `B`
with those `A` had; with values `v1` in `A` and `v2` in `B`, `A` ends holding
`v2` and `B` holding `v1`. -/
theorem C8_swap (A B : CommonAwaitable R)
    (hA : A.tagConsistent = true) (hB : B.tagConsistent = true) :
    ∃ A1 B1 : CommonAwaitable R,
      A.swap B = some (A1, B1) ∧
      A1.mState = B.mState ∧ A1.mResult = B.mResult ∧ A1.mAwaiter = B.mAwaiter ∧
      B1.mState = A.mState ∧ B1.mResult = A.mResult ∧ B1.mAwaiter = A.mAwaiter ∧
      (∀ v1 v2, A.mResult = EitherData.b v1 → B.mResult = EitherData.b v2 →
        A1.result = some v2 ∧ B1.result = some v1) := by
  refine ⟨B, A, ?_, rfl, rfl, rfl, rfl, rfl, rfl, ?_⟩
  · obtain ⟨s, w, p⟩ := A
    obtain ⟨t, x, q⟩ := B
    rcases tagConsistent_cases _ hA with ⟨h, v, hv⟩ | ⟨h, e, hv⟩ <;>
      rcases tagConsistent_cases _ hB with ⟨k, u, hu⟩ | ⟨k, f, hu⟩ <;>
      simp only at hv hu <;> subst hv <;> subst hu <;>
      simp [swap, h, k, EitherData.swap]
  · intro v1 v2 h1 h2
    obtain ⟨s, w, p⟩ := A
    obtain ⟨t, x, q⟩ := B
    simp only at h1 h2
    subst h1 h2
    simp only [tagConsistent, hasResult, beq_iff_eq] at hA hB
    simp [result, isReady, hasError, EitherData.getB, hA, hB]

/-- C8 witness: `A` holds 1 and `B` holds 2. -/
theorem C8_swap_witness :
    ∃ A1 B1 : CommonAwaitable Nat,
      ({ mState := ST_Completed, mAwaiter := some 10, mResult := EitherData.b 1 } :
        CommonAwaitable Nat).swap
        { mState := ST_Completed, mAwaiter := some 20, mResult := EitherData.b 2 }
        = some (A1, B1) ∧
      A1.mState = ST_Completed ∧ A1.mResult = EitherData.b 2 ∧ A1.mAwaiter = some 20 ∧
      B1.mState = ST_Completed ∧ B1.mResult = EitherData.b 1 ∧ B1.mAwaiter = some 10 ∧
      (∀ v1 v2, (EitherData.b 1 : EitherData Error Nat) = EitherData.b v1 →
        (EitherData.b 2 : EitherData Error Nat) = EitherData.b v2 →
        A1.result = some v2 ∧ B1.result = some v1) :=
  C8_swap { mState := ST_Completed, mAwaiter := some 10, mResult := EitherData.b 1 }
    { mState := ST_Completed, mAwaiter := some 20, mResult := EitherData.b 2 } rfl rfl

/-- C10: `reset(s)` on an object in any tag-consistent state (Pending,
Completed with a value, holding an error, Canceled, Moved) and for any
requested state `s` completes; afterwards the state is `s`, the payload is the
empty error (no value, no error) and the continuation is cleared. -/
theorem C10_reset (A : CommonAwaitable R) (s : AwaitableState)
    (hA : A.tagConsistent = true) :
    ∃ A1 : CommonAwaitable R,
      A.reset s = some A1 ∧
      A1.mState = s ∧ A1.mResult = EitherData.a Error.empty ∧ A1.mAwaiter = none ∧
      (∀ v : R, A1.mResult ≠ EitherData.b v) ∧ A1.hasError = false := by
  refine ⟨{ mState := s, mAwaiter := none, mResult := EitherData.a Error.empty },
    ?_, rfl, rfl, rfl, ?_, rfl⟩
  · obtain ⟨t, w, p⟩ := A
    rcases tagConsistent_cases _ hA with ⟨h, v, hv⟩ | ⟨h, e, hv⟩ <;>
      simp only at hv <;> subst hv <;>
      simp [reset, h, EitherData.assignA]
  · intro v h
    cases h

/-- C10 witness: recycling an `Awaitable<int>` completed with 42 back to
Pending. -/
theorem C10_reset_witness :
    ∃ A1 : CommonAwaitable Nat,
      ({ mState := ST_Completed, mAwaiter := some 3, mResult := EitherData.b 42 } :
        CommonAwaitable Nat).reset AwaitableState.Pending = some A1 ∧
      A1.mState = AwaitableState.Pending ∧ A1.mResult = EitherData.a Error.empty ∧
      A1.mAwaiter = none ∧
      (∀ v : Nat, A1.mResult ≠ EitherData.b v) ∧ A1.hasError = false :=
  C10_reset { mState := ST_Completed, mAwaiter := some 3, mResult := EitherData.b 42 }
    AwaitableState.Pending rfl

end CommonAwaitable

/-! ## Theorems: `CommonAwaitable<void>` -/

namespace CommonAwaitableVoid

/-- C7 (the code at the failing input): `A` is Pending with stored error 7 and
continuation 1, `B` is fresh.  After `B = move(A)` the state and continuation
have moved, but `mError` was not touched: `B` holds the empty error and `A`
still holds error 7. -/
theorem C7_void_moveAssign_keeps_mError :
    (new.moveAssign { mState := AwaitableState.Pending, mAwaiter := some 1, mError := some 7 })
      = ({ mState := AwaitableState.Pending, mAwaiter := some 1, mError := Error.empty },
         { mState := ST_Moved, mAwaiter := none, mError := some 7 }) := by
  rfl

/-- C9 (the code at the failing input): `A` is Pending with stored error 1 and
continuation 10, `B` is Canceled with the empty error and continuation 20.
After `swap(A, B)` states and continuations are exchanged, but `mError` was not
touched: `A` still holds error 1 and `B` still holds the empty error. -/
theorem C9_void_swap_keeps_mError :
    (swap { mState := AwaitableState.Pending, mAwaiter := some 10, mError := some 1 }
          { mState := ST_Canceled, mAwaiter := some 20, mError := Error.empty })
      = ({ mState := ST_Canceled, mAwaiter := some 20, mError := some 1 },
         { mState := AwaitableState.Pending, mAwaiter := some 10, mError := Error.empty }) := by
  rfl

/-- C11 (the code at the failing input): the fresh `Awaitable<void>` gets error
7 through `initializeError` and is then recycled with `reset(Pending)`.  The
state is Pending and the continuation is cleared, but `mError` still holds
error 7, `hasError()` is still true, and the next `initializeResult()` fails
its own `ut_assert(mError == Error())`. -/
theorem C11_void_reset_keeps_mError :
    new.initializeError (some 7)
      = some { mState := AwaitableState.Pending, mAwaiter := none, mError := some 7 } ∧
    reset { mState := AwaitableState.Pending, mAwaiter := none, mError := some 7 }
        AwaitableState.Pending
      = { mState := AwaitableState.Pending, mAwaiter := none, mError := some 7 } ∧
    (reset { mState := AwaitableState.Pending, mAwaiter := none, mError := some 7 }
        AwaitableState.Pending).hasError = true ∧
    (reset { mState := AwaitableState.Pending, mAwaiter := none, mError := some 7 }
        AwaitableState.Pending).initializeResult = none := by
  refine ⟨?_, ?_, ?_, ?_⟩ <;> rfl

/-- C12: on a not-ready `Awaitable<void>` with empty error `initializeResult()`
returns true (and changes nothing); `initializeError(E)` with a non-empty `E`
stores `E`, after which `get()` raises `E`; in every state `get()` raises
exactly when the stored error is non-empty, what it raises is the stored error,
and with an empty stored error `get()` returns normally. -/
theorem C12_void_initializeResult_get :
    (∀ a : CommonAwaitableVoid, a.isReady = false → a.mError = Error.empty →
      a.initializeResult = some (true, a)) ∧
    (∀ (a : CommonAwaitableVoid) (E : Error), a.isReady = false → a.mError = Error.empty →
      E ≠ Error.empty →
      ∃ a1, a.initializeError E = some a1 ∧ a1.mError = E ∧ a1.get = GetOutcome.raised E) ∧
    (∀ a : CommonAwaitableVoid, (∃ e, a.get = GetOutcome.raised e) ↔ a.mError ≠ Error.empty) ∧
    (∀ (a : CommonAwaitableVoid) (e : Error), a.get = GetOutcome.raised e → e = a.mError) ∧
    (∀ a : CommonAwaitableVoid, a.mError = Error.empty → a.get = GetOutcome.returned ()) := by
  refine ⟨?_, ?_, ?_, ?_, ?_⟩
  · intro a h1 h2
    simp [initializeResult, h1, h2]
  · intro a E h1 h2 hE
    have hE1 : (E == Error.empty) = false := by simpa using hE
    refine ⟨{ a with mError := E }, ?_, rfl, ?_⟩
    · simp [initializeError, h1, h2, hE1]
    · cases E with
      | none => exact absurd rfl hE
      | some n => simp [get, hasError, error]
  · intro a
    obtain ⟨s, w, e⟩ := a
    cases e <;> simp [get, hasError, error]
  · intro a e
    obtain ⟨s, w, x⟩ := a
    cases x <;> simp [get, hasError, error]
    intro h
    exact h.symm
  · intro a h
    simp [get, hasError, h]

/-- C12 witness: `initializeError` with exception 7 on the fresh
`Awaitable<void>`, after which `get()` raises exception 7. -/
theorem C12_void_initializeResult_get_witness :
    ∃ a1, new.initializeError (some 7) = some a1 ∧ a1.mError = some 7 ∧
      a1.get = GetOutcome.raised (some 7) :=
  C12_void_initializeResult_get.2.1 new (some 7) rfl rfl (by decide)

end CommonAwaitableVoid

/-! ## What a completed call leaves behind

Each operation of `CommonAwaitable<R>` that runs to its end determines the
objects afterwards; an operation runs to its end exactly when the branch
flags it passes to the storage name the live branches. -/

namespace CommonAwaitable

variable {R Args : Type}

/-- A move construction that completes copies the source into the new object
and leaves `movedFrom` behind. -/
theorem moveConstruct_some (A B A1 : CommonAwaitable R) (residue : Error → Error)
    (h : A.moveConstruct residue = some (B, A1)) : B = A ∧ A1 = movedFrom := by
  obtain ⟨s, w, p⟩ := A
  cases hs : (s == ST_Completed) <;> cases p <;>
    simp [moveConstruct, hasResult, hs, EitherData.moveConstruct, EitherData.assignA,
      movePtr, Error.move, movedFrom] at h ⊢ <;>
    exact ⟨h.1.symm, h.2.symm⟩

/-- A tag-consistent source can always be moved from. -/
theorem moveConstruct_of_tagConsistent (A : CommonAwaitable R) (residue : Error → Error)
    (hA : A.tagConsistent = true) :
    A.moveConstruct residue = some (A, movedFrom) := by
  obtain ⟨s, w, p⟩ := A
  rcases tagConsistent_cases _ hA with ⟨h, v, hv⟩ | ⟨h, e, hv⟩ <;>
    simp only at hv <;> subst hv <;>
    simp [moveConstruct, h, EitherData.moveConstruct, EitherData.assignA, movePtr,
      Error.move, movedFrom]

/-- A move assignment that completes copies the source into the destination
and leaves `assignedFrom` behind. -/
theorem moveAssign_some (B A B1 A1 : CommonAwaitable R) (residue : Error → Error)
    (h : B.moveAssign A residue = some (B1, A1)) : B1 = A ∧ A1 = assignedFrom A residue := by
  obtain ⟨s, w, p⟩ := A
  obtain ⟨t, x, q⟩ := B
  cases hs : (s == ST_Completed) <;> cases ht : (t == ST_Completed) <;>
    cases p <;> cases q <;>
    simp [moveAssign, moveAssignPayload, hasResult, hs, ht, EitherData.getA, EitherData.getB,
      EitherData.assignA, EitherData.assignB, EitherData.assignAIntoB, movePtr, Error.move,
      assignedFrom] at h ⊢ <;>
    exact ⟨h.1.symm, h.2.symm⟩

/-- Tag-consistent objects can always be move-assigned. -/
theorem moveAssign_of_tagConsistent (B A : CommonAwaitable R) (residue : Error → Error)
    (hA : A.tagConsistent = true) (hB : B.tagConsistent = true) :
    B.moveAssign A residue = some (A, assignedFrom A residue) := by
  obtain ⟨s, w, p⟩ := A
  obtain ⟨t, x, q⟩ := B
  rcases tagConsistent_cases _ hA with ⟨h, v, hv⟩ | ⟨h, e, hv⟩ <;>
    rcases tagConsistent_cases _ hB with ⟨k, u, hu⟩ | ⟨k, f, hu⟩ <;>
    simp only at hv hu <;> subst hv <;> subst hu <;>
    simp [moveAssign, moveAssignPayload, h, k, EitherData.getA, EitherData.getB,
      EitherData.assignA, EitherData.assignB, EitherData.assignAIntoB, movePtr, Error.move,
      assignedFrom]

/-- The object `operator=` leaves behind is tag-consistent and not Pending. -/
theorem assignedFrom_tagConsistent (A : CommonAwaitable R) (residue : Error → Error) :
    (assignedFrom A residue).tagConsistent = true ∧
    (assignedFrom A residue).mState = ST_Moved ∧ (assignedFrom A residue).mAwaiter = none := by
  obtain ⟨s, w, p⟩ := A
  cases p <;> exact ⟨rfl, rfl, rfl⟩

/-- A swap that completes exchanges the two objects. -/
theorem swap_some (A B A1 B1 : CommonAwaitable R)
    (h : A.swap B = some (A1, B1)) : A1 = B ∧ B1 = A := by
  obtain ⟨s, w, p⟩ := A
  obtain ⟨t, x, q⟩ := B
  cases hs : (s == ST_Completed) <;> cases ht : (t == ST_Completed) <;>
    cases p <;> cases q <;>
    simp [swap, hasResult, hs, ht, EitherData.swap] at h ⊢ <;>
    exact ⟨h.1.symm, h.2.symm⟩

/-- Tag-consistent objects can always be swapped. -/
theorem swap_of_tagConsistent (A B : CommonAwaitable R)
    (hA : A.tagConsistent = true) (hB : B.tagConsistent = true) :
    A.swap B = some (B, A) := by
  obtain ⟨s, w, p⟩ := A
  obtain ⟨t, x, q⟩ := B
  rcases tagConsistent_cases _ hA with ⟨h, v, hv⟩ | ⟨h, e, hv⟩ <;>
    rcases tagConsistent_cases _ hB with ⟨k, u, hu⟩ | ⟨k, f, hu⟩ <;>
    simp only at hv hu <;> subst hv <;> subst hu <;>
    simp [swap, h, k, EitherData.swap]

/-- A `reset(s)` that completes leaves state `s`, no continuation and the
empty error. -/
theorem reset_some (A A1 : CommonAwaitable R) (s : AwaitableState)
    (h : A.reset s = some A1) :
    A1 = { mState := s, mAwaiter := none, mResult := EitherData.a Error.empty } := by
  obtain ⟨t, w, p⟩ := A
  cases ht : (t == ST_Completed) <;> cases p <;>
    simp [reset, hasResult, ht, EitherData.assignA] at h ⊢ <;>
    exact h.symm

/-- A tag-consistent object can always be reset. -/
theorem reset_of_tagConsistent (A : CommonAwaitable R) (s : AwaitableState)
    (hA : A.tagConsistent = true) :
    A.reset s = some { mState := s, mAwaiter := none, mResult := EitherData.a Error.empty } := by
  obtain ⟨t, w, p⟩ := A
  rcases tagConsistent_cases _ hA with ⟨h, v, hv⟩ | ⟨h, e, hv⟩ <;>
    simp only at hv <;> subst hv <;>
    simp [reset, h, EitherData.assignA]

/-- An `initializeResult` that completes writes the payload only. -/
theorem initializeResult_some (a a1 : CommonAwaitable R) (c : Constructor Args R)
    (args : Args) (r : Bool) (h : a.initializeResult c args = some (r, a1)) :
    a1.mState = a.mState ∧ a1.mAwaiter = a.mAwaiter ∧ a.isReady = false ∧
    a1.mResult ≠ EitherData.a Error.empty := by
  obtain ⟨s, w, p⟩ := a
  cases hr : isReady (R := R) { mState := s, mAwaiter := w, mResult := p }
  · cases p with
    | a e =>
      cases e with
      | none =>
        cases c with
        | nothrow f =>
          simp [initializeResult, initializeResultImpl_NoThrow, hr, EitherData.getA,
            EitherData.emplaceBIntoA] at h
          obtain ⟨-, h2⟩ := h
          subst h2
          simp
        | maythrow f =>
          cases hf : f args with
          | ok v =>
            simp [initializeResult, initializeResultImpl_Throw, hr, EitherData.getA,
              EitherData.emplaceBIntoA, hf] at h
            obtain ⟨-, h2⟩ := h
            subst h2
            simp
          | error n =>
            simp [initializeResult, initializeResultImpl_Throw, hr, EitherData.getA,
              EitherData.emplaceBIntoA, EitherData.assignIntoBlank, hf, current_exception] at h
            obtain ⟨-, h2⟩ := h
            subst h2
            simp
      | some m =>
        cases c <;>
          simp [initializeResult, initializeResultImpl_NoThrow, initializeResultImpl_Throw, hr,
            EitherData.getA] at h
    | b v =>
      cases c <;>
        simp [initializeResult, initializeResultImpl_NoThrow, initializeResultImpl_Throw, hr,
          EitherData.getA] at h
    | blank =>
      cases c <;>
        simp [initializeResult, initializeResultImpl_NoThrow, initializeResultImpl_Throw, hr,
          EitherData.getA] at h
  · cases c <;>
      simp [initializeResult, initializeResultImpl_NoThrow, initializeResultImpl_Throw, hr] at h

/-- On a not-ready object with empty payload `initializeResult` completes. -/
theorem initializeResult_defined (a : CommonAwaitable R) (c : Constructor Args R) (args : Args)
    (hready : a.isReady = false) (hempty : a.mResult = EitherData.a Error.empty) :
    ∃ (r : Bool) (a1 : CommonAwaitable R), a.initializeResult c args = some (r, a1) := by
  obtain ⟨s, w, p⟩ := a
  simp only at hempty
  subst hempty
  cases c with
  | nothrow f =>
    simp [initializeResult, initializeResultImpl_NoThrow, hready, EitherData.getA,
      EitherData.emplaceBIntoA]
  | maythrow f =>
    cases hf : f args <;>
      simp [initializeResult, initializeResultImpl_Throw, hready, EitherData.getA,
        EitherData.emplaceBIntoA, EitherData.assignIntoBlank, hf]

/-- On a not-ready object with empty payload `initializeError` with a
non-empty error completes. -/
theorem initializeError_defined (a : CommonAwaitable R) (E : Error)
    (hready : a.isReady = false) (hempty : a.mResult = EitherData.a Error.empty)
    (hE : E ≠ Error.empty) :
    a.initializeError E = some { a with mResult := EitherData.a E } := by
  obtain ⟨s, w, p⟩ := a
  simp only at hempty
  subst hempty
  have hE1 : (E == Error.empty) = false := by simpa using hE
  simp [initializeError, hready, EitherData.getA, hE1]

end CommonAwaitable

/-! ## Theorems: tag consistency, frame of the completion calls, swap algebra -/

namespace CommonAwaitable

variable {R Args : Type}

/-- C16: tag consistency (value branch live exactly when the state is
`ST_Completed`) is preserved: for tag-consistent `A` and `B`, move
construction from `A`, move assignment `B = move(A)` and `swap(A, B)` complete
and leave both objects tag-consistent, and `reset(s)` on `A` completes and
leaves `A` tag-consistent for every requested `s` other than `ST_Completed`. -/
theorem C16_tagConsistent_preserved (A B : CommonAwaitable R) (residue : Error → Error)
    (hA : A.tagConsistent = true) (hB : B.tagConsistent = true) :
    (∃ N A1 : CommonAwaitable R, A.moveConstruct residue = some (N, A1) ∧
      N.tagConsistent = true ∧ A1.tagConsistent = true) ∧
    (∃ B1 A1 : CommonAwaitable R, B.moveAssign A residue = some (B1, A1) ∧
      B1.tagConsistent = true ∧ A1.tagConsistent = true) ∧
    (∃ A1 B1 : CommonAwaitable R, A.swap B = some (A1, B1) ∧
      A1.tagConsistent = true ∧ B1.tagConsistent = true) ∧
    (∀ s : AwaitableState, s ≠ ST_Completed →
      ∃ A1 : CommonAwaitable R, A.reset s = some A1 ∧ A1.tagConsistent = true) := by
  refine ⟨⟨A, movedFrom, moveConstruct_of_tagConsistent A residue hA, hA, rfl⟩,
    ⟨A, assignedFrom A residue, moveAssign_of_tagConsistent B A residue hA hB, hA,
      (assignedFrom_tagConsistent A residue).1⟩,
    ⟨B, A, swap_of_tagConsistent A B hA hB, hB, hA⟩, ?_⟩
  intro s hs
  refine ⟨_, reset_of_tagConsistent A s hA, ?_⟩
  simpa [tagConsistent, hasResult] using hs

/-- C16 witness: `A` completed with 42, `B` Pending with error 7. -/
theorem C16_tagConsistent_preserved_witness :
    (∃ N A1 : CommonAwaitable Nat,
      ({ mState := ST_Completed, mAwaiter := some 3, mResult := EitherData.b 42 } :
        CommonAwaitable Nat).moveConstruct Error.copying = some (N, A1) ∧
      N.tagConsistent = true ∧ A1.tagConsistent = true) ∧
    (∃ B1 A1 : CommonAwaitable Nat,
      ({ mState := AwaitableState.Pending, mAwaiter := some 1, mResult := EitherData.a (some 7) } :
        CommonAwaitable Nat).moveAssign
        { mState := ST_Completed, mAwaiter := some 3, mResult := EitherData.b 42 }
        Error.copying
        = some (B1, A1) ∧
      B1.tagConsistent = true ∧ A1.tagConsistent = true) ∧
    (∃ A1 B1 : CommonAwaitable Nat,
      ({ mState := ST_Completed, mAwaiter := some 3, mResult := EitherData.b 42 } :
        CommonAwaitable Nat).swap
        { mState := AwaitableState.Pending, mAwaiter := some 1, mResult := EitherData.a (some 7) }
        = some (A1, B1) ∧
      A1.tagConsistent = true ∧ B1.tagConsistent = true) ∧
    (∀ s : AwaitableState, s ≠ ST_Completed →
      ∃ A1 : CommonAwaitable Nat,
        ({ mState := ST_Completed, mAwaiter := some 3, mResult := EitherData.b 42 } :
          CommonAwaitable Nat).reset s = some A1 ∧ A1.tagConsistent = true) :=
  C16_tagConsistent_preserved
    { mState := ST_Completed, mAwaiter := some 3, mResult := EitherData.b 42 }
    { mState := AwaitableState.Pending, mAwaiter := some 1, mResult := EitherData.a (some 7) }
    Error.copying rfl rfl

/-- C17: `initializeResult` and `initializeError`, of the generic class and of
the void specialization, change only the payload: on every object that meets
their preconditions (not ready, empty payload, and a non-empty error for
`initializeError`) the call completes, and the state and the continuation
afterwards are the ones before. -/
theorem C17_initialize_frame :
    (∀ (a : CommonAwaitable R) (c : Constructor Args R) (args : Args),
      a.isReady = false → a.mResult = EitherData.a Error.empty →
      ∃ (r : Bool) (a1 : CommonAwaitable R), a.initializeResult c args = some (r, a1) ∧
        a1.mState = a.mState ∧ a1.mAwaiter = a.mAwaiter) ∧
    (∀ (a : CommonAwaitable R) (E : Error),
      a.isReady = false → a.mResult = EitherData.a Error.empty → E ≠ Error.empty →
      ∃ a1 : CommonAwaitable R, a.initializeError E = some a1 ∧
        a1.mState = a.mState ∧ a1.mAwaiter = a.mAwaiter) ∧
    (∀ x : CommonAwaitableVoid,
      x.isReady = false → x.mError = Error.empty →
      ∃ (r : Bool) (x1 : CommonAwaitableVoid), x.initializeResult = some (r, x1) ∧
        x1.mState = x.mState ∧ x1.mAwaiter = x.mAwaiter) ∧
    (∀ (x : CommonAwaitableVoid) (E : Error),
      x.isReady = false → x.mError = Error.empty → E ≠ Error.empty →
      ∃ x1 : CommonAwaitableVoid, x.initializeError E = some x1 ∧
        x1.mState = x.mState ∧ x1.mAwaiter = x.mAwaiter) := by
  refine ⟨?_, ?_, ?_, ?_⟩
  · intro a c args h1 h2
    obtain ⟨r, a1, h⟩ := initializeResult_defined a c args h1 h2
    have hf := initializeResult_some a a1 c args r h
    exact ⟨r, a1, h, hf.1, hf.2.1⟩
  · intro a E h1 h2 hE
    exact ⟨_, initializeError_defined a E h1 h2 hE, rfl, rfl⟩
  · intro x h1 h2
    refine ⟨true, x, ?_, rfl, rfl⟩
    simp [CommonAwaitableVoid.initializeResult, h1, h2]
  · intro x E h1 h2 hE
    have hE1 : (E == Error.empty) = false := by simpa using hE
    refine ⟨{ x with mError := E }, ?_, rfl, rfl⟩
    simp [CommonAwaitableVoid.initializeError, h1, h2, hE1]

/-- C17 witness: `initializeResult(42)` on a Pending `Awaitable<int>` with
continuation 5 leaves state Pending and continuation 5. -/
theorem C17_initialize_frame_witness :
    ∃ (r : Bool) (a1 : CommonAwaitable Nat),
      ({ mState := AwaitableState.Pending, mAwaiter := some 5,
         mResult := EitherData.a Error.empty } : CommonAwaitable Nat).initializeResult
        (Constructor.nothrow fun n : Nat => n) 42 = some (r, a1) ∧
      a1.mState = AwaitableState.Pending ∧ a1.mAwaiter = some 5 :=
  (@C17_initialize_frame Nat Nat).1
    { mState := AwaitableState.Pending, mAwaiter := some 5, mResult := EitherData.a Error.empty }
    (Constructor.nothrow fun n : Nat => n) 42 rfl rfl

/-- C18: swap is an involution and symmetric.  For tag-consistent `A` and `B`
of the generic class, `swap(A, B)` completes, swapping the results again gives
back `A` and `B`, and `swap(B, A)` leaves the same two objects as
`swap(A, B)`; the same holds for any two objects `X`, `Y` of the void
specialization. -/
theorem C18_swap_involution_symmetric (A B : CommonAwaitable R)
    (hA : A.tagConsistent = true) (hB : B.tagConsistent = true)
    (X Y : CommonAwaitableVoid) :
    (∃ A1 B1 : CommonAwaitable R, A.swap B = some (A1, B1) ∧
      A1.swap B1 = some (A, B) ∧ B.swap A = some (B1, A1)) ∧
    ((X.swap Y).1.swap (X.swap Y).2 = (X, Y) ∧
      Y.swap X = ((X.swap Y).2, (X.swap Y).1)) := by
  refine ⟨⟨B, A, swap_of_tagConsistent A B hA hB, swap_of_tagConsistent B A hB hA,
    swap_of_tagConsistent B A hB hA⟩, rfl, rfl⟩

/-- C18 witness: `A` holds 1, `B` holds error 7; `X` holds error 1, `Y` is
Canceled. -/
theorem C18_swap_involution_symmetric_witness :
    (∃ A1 B1 : CommonAwaitable Nat,
      ({ mState := ST_Completed, mAwaiter := some 10, mResult := EitherData.b 1 } :
        CommonAwaitable Nat).swap
        { mState := AwaitableState.Pending, mAwaiter := some 20, mResult := EitherData.a (some 7) }
        = some (A1, B1) ∧
      A1.swap B1 = some
        ({ mState := ST_Completed, mAwaiter := some 10, mResult := EitherData.b 1 },
         { mState := AwaitableState.Pending, mAwaiter := some 20,
           mResult := EitherData.a (some 7) }) ∧
      ({ mState := AwaitableState.Pending, mAwaiter := some 20, mResult := EitherData.a (some 7) } :
        CommonAwaitable Nat).swap
        { mState := ST_Completed, mAwaiter := some 10, mResult := EitherData.b 1 }
        = some (B1, A1)) ∧
    ((CommonAwaitableVoid.swap
        { mState := AwaitableState.Pending, mAwaiter := some 10, mError := some 1 }
        { mState := ST_Canceled, mAwaiter := some 20, mError := Error.empty }).1.swap
      (CommonAwaitableVoid.swap
        { mState := AwaitableState.Pending, mAwaiter := some 10, mError := some 1 }
        { mState := ST_Canceled, mAwaiter := some 20, mError := Error.empty }).2
      = ({ mState := AwaitableState.Pending, mAwaiter := some 10, mError := some 1 },
         { mState := ST_Canceled, mAwaiter := some 20, mError := Error.empty }) ∧
      CommonAwaitableVoid.swap
        { mState := ST_Canceled, mAwaiter := some 20, mError := Error.empty }
        { mState := AwaitableState.Pending, mAwaiter := some 10, mError := some 1 }
      = ((CommonAwaitableVoid.swap
          { mState := AwaitableState.Pending, mAwaiter := some 10, mError := some 1 }
          { mState := ST_Canceled, mAwaiter := some 20, mError := Error.empty }).2,
         (CommonAwaitableVoid.swap
          { mState := AwaitableState.Pending, mAwaiter := some 10, mError := some 1 }
          { mState := ST_Canceled, mAwaiter := some 20, mError := Error.empty }).1)) :=
  C18_swap_involution_symmetric
    { mState := ST_Completed, mAwaiter := some 10, mResult := EitherData.b 1 }
    { mState := AwaitableState.Pending, mAwaiter := some 20, mResult := EitherData.a (some 7) }
    rfl rfl
    { mState := AwaitableState.Pending, mAwaiter := some 10, mError := some 1 }
    { mState := ST_Canceled, mAwaiter := some 20, mError := Error.empty }

end CommonAwaitable

/-! ## Theorems: the Pending invariant -/

namespace CommonAwaitable

variable {R Args : Type}

/-- C14 (as stated, refuted): `initializeError(7)` on the fresh `Awaitable<int>`
runs within its preconditions and leaves the state Pending with error 7 in the
payload; likewise `initializeResult(42)` leaves the state Pending with the
value 42 in the payload. -/
theorem C14_pending_with_payload :
    (∃ a1 : CommonAwaitable Nat,
      (new : CommonAwaitable Nat).initializeError (some 7) = some a1 ∧
      a1.mState = AwaitableState.Pending ∧ a1.mResult ≠ EitherData.a Error.empty) ∧
    (∃ a1 : CommonAwaitable Nat,
      (new : CommonAwaitable Nat).initializeResult (Constructor.nothrow fun n : Nat => n) 42
        = some (true, a1) ∧
      a1.mState = AwaitableState.Pending ∧ a1.mResult ≠ EitherData.a Error.empty) := by
  refine ⟨⟨{ mState := AwaitableState.Pending, mAwaiter := none,
              mResult := EitherData.a (some 7) }, rfl, rfl, by decide⟩,
    ⟨{ mState := AwaitableState.Pending, mAwaiter := none, mResult := EitherData.b 42 },
      rfl, rfl, by decide⟩⟩

/-- Every reachable state of the generic class with state Pending has the
empty error as payload. -/
theorem reachable_pending_empty (a : CommonAwaitable R) (ha : Reachable Args R a) :
    a.mState = AwaitableState.Pending → a.mResult = EitherData.a Error.empty := by
  induction ha with
  | fresh => intro _; rfl
  | reset a a1 s _ h _ =>
    intro _
    rw [reset_some a a1 s h]
  | moveConstructNew a n a1 residue _ h ih =>
    rw [(moveConstruct_some a n a1 residue h).1]
    exact ih
  | moveConstructSource a n a1 residue _ h _ =>
    intro _
    rw [(moveConstruct_some a n a1 residue h).2]
    rfl
  | moveAssignTarget b a b1 a1 residue _ _ h _ ih =>
    rw [(moveAssign_some b a b1 a1 residue h).1]
    exact ih
  | moveAssignSource b a b1 a1 residue _ _ h _ _ =>
    intro hP
    rw [(moveAssign_some b a b1 a1 residue h).2] at hP
    rw [(assignedFrom_tagConsistent a residue).2.1] at hP
    cases hP
  | swapLeft a b a1 b1 _ _ h _ ihb =>
    rw [(swap_some a b a1 b1 h).1]
    exact ihb
  | swapRight a b a1 b1 _ _ h iha _ =>
    rw [(swap_some a b a1 b1 h).2]
    exact iha
  | initializeResult a a1 c args r s _ _ hs _ =>
    intro h
    exact absurd h hs
  | initializeError a a1 E s _ _ hs _ =>
    intro h
    exact absurd h hs

/-- Every reachable state of the void specialization with state Pending has the
empty error as payload. -/
theorem void_reachable_pending_empty (x : CommonAwaitableVoid)
    (hx : CommonAwaitableVoid.Reachable x) :
    x.mState = AwaitableState.Pending → x.mError = Error.empty := by
  induction hx with
  | fresh => intro _; rfl
  | moveConstructNew x residue _ ih => exact ih
  | moveConstructSource x residue _ _ =>
    intro hP
    cases hP
  | initializeResult x x1 r s _ _ hs _ =>
    intro h
    exact absurd h hs
  | initializeError x x1 E s _ _ hs _ =>
    intro h
    exact absurd h hs

/-- C14 (amended): in every state of the generic class reachable from a freshly
constructed object by `reset`, move construction, move assignment, swap and
the completion calls `initializeResult` / `initializeError`, each completion
call counted together with the caller's write of a state other than Pending
that follows it, the payload is the empty error whenever the state is Pending;
the same holds for the void specialization over move construction and the
completion calls. -/
theorem C14_pending_payload_empty (a : CommonAwaitable R) (x : CommonAwaitableVoid)
    (ha : Reachable Args R a) (hx : CommonAwaitableVoid.Reachable x) :
    (a.mState = AwaitableState.Pending → a.mResult = EitherData.a Error.empty) ∧
    (x.mState = AwaitableState.Pending → x.mError = Error.empty) :=
  ⟨reachable_pending_empty a ha, void_reachable_pending_empty x hx⟩

/-- C14 witness: an `Awaitable<int>` completed with 42 and recycled with
`reset(Pending)`, and an `Awaitable<void>` move-constructed from a fresh one. -/
theorem C14_pending_payload_empty_witness :
    Reachable Nat Nat
      { mState := AwaitableState.Pending, mAwaiter := none,
        mResult := EitherData.a Error.empty } ∧
    CommonAwaitableVoid.Reachable (CommonAwaitableVoid.moveConstruct CommonAwaitableVoid.new Error.copying).1 ∧
    (({ mState := AwaitableState.Pending, mAwaiter := none,
        mResult := EitherData.a Error.empty } : CommonAwaitable Nat).mState
        = AwaitableState.Pending →
      ({ mState := AwaitableState.Pending, mAwaiter := none,
         mResult := EitherData.a Error.empty } : CommonAwaitable Nat).mResult
        = EitherData.a Error.empty) ∧
    ((CommonAwaitableVoid.moveConstruct CommonAwaitableVoid.new Error.copying).1.mState
        = AwaitableState.Pending →
      (CommonAwaitableVoid.moveConstruct CommonAwaitableVoid.new Error.copying).1.mError = Error.empty) :=
  have h1 : Reachable Nat Nat
      { mState := AwaitableState.Pending, mAwaiter := none,
        mResult := EitherData.a Error.empty } :=
    Reachable.reset
      { mState := ST_Completed, mAwaiter := none, mResult := EitherData.b 42 } _
      AwaitableState.Pending
      (Reachable.initializeResult new
        { mState := AwaitableState.Pending, mAwaiter := none, mResult := EitherData.b 42 }
        (Constructor.nothrow fun n : Nat => n) 42 true ST_Completed
        Reachable.fresh rfl (by decide))
      rfl
  have h2 : CommonAwaitableVoid.Reachable
      (CommonAwaitableVoid.moveConstruct CommonAwaitableVoid.new Error.copying).1 :=
    CommonAwaitableVoid.Reachable.moveConstructNew _ _ CommonAwaitableVoid.Reachable.fresh
  ⟨h1, h2, C14_pending_payload_empty _ _ h1 h2⟩

end CommonAwaitable

/-! ## Theorems: continuations -/

/-- Moving the (state, continuation) pair of the object at `i` to address `j`
and leaving an object without continuation at `i`. -/
theorem Effect.move {R : Type} (w : World R) (i j : Nat) (n a1 : CommonAwaitable R)
    (hji : j ≠ i) (hn1 : n.mAwaiter = (w.objs i).mAwaiter) (hn2 : n.mState = (w.objs i).mState)
    (ha : a1.mAwaiter = none) :
    Effect w { w with objs := Function.update (Function.update w.objs i a1) j n } := by
  refine Effect.rename (fun x => if x = j then some i else if x = i then none else some x)
    ?_ ?_ ?_ rfl rfl
  · intro x hx
    dsimp only at hx ⊢
    split_ifs at hx with h1 h2
    subst h2
    simp [Function.update_apply, h1, ha]
  · intro x y hx
    dsimp only at hx ⊢
    split_ifs at hx with h1 h2
    · cases hx
      subst h1
      simp [hn1, hn2]
    · cases hx
      simp [Function.update_apply, h1, h2]
  · intro x y z hx hy
    dsimp only at hx hy
    split_ifs at hx hy with h1 h2 h3 h4 h5 h6 <;>
      simp only [Option.some.injEq] at hx hy <;> omega

end ut
